import Mathlib

/-!
Verification development for the portfolio-site interaction core:
the popup state machine (`PopupStateManager`), the orbit-style camera
controls (`CameraControls`, two copies of the source file), and the
WebGL feature-detection entry point (`initPortfolio`).

Numbers are modelled over an arbitrary `LinearOrderedField K`; the
JavaScript constant `Math.PI` becomes an explicit parameter `pi : K`,
and `Math.sin` / `Math.cos` become function parameters where used.
DOM side effects are modelled as record fields (CSS classes as
booleans, the cursor style as a string); timers become an explicit
`pendingTransition` field together with a firing event.
-/

/- ═══ Popup state machine (PopupStateManager) ═══ -/

/-- Kind of the pending `setTimeout` transition scheduled by
`open` (OPENING to OPEN) or `close` (CLOSING to CLOSED). -/
inductive PendingKind where
  | toOpen
  | toClose
deriving DecidableEq

/-- State of a `PopupStateManager` instance: the `state` string, the
three CSS classes the manager toggles on its element, and whether a
transition timeout is pending. -/
structure PopupStateManager where
  state : String
  active : Bool
  fading : Bool
  interactive : Bool
  pendingTransition : Option PendingKind
deriving DecidableEq

namespace PopupStateManager

/-- STATES.CLOSED of the source. -/
def CLOSED : String := "closed"

/-- STATES.OPENING of the source. -/
def OPENING : String := "opening"

/-- STATES.OPEN of the source. -/
def OPEN : String := "open"

/-- STATES.CLOSING of the source. -/
def CLOSING : String := "closing"

/-- Constructor state: state CLOSED, no pending transition; the element
starts without the managed classes. -/
def initial : PopupStateManager :=
  { state := CLOSED, active := false, fading := false, interactive := false,
    pendingTransition := none }

/-- getState of the source. -/
def getState (p : PopupStateManager) : String := p.state

/-- isVisible of the source: state is OPENING or OPEN. -/
def isVisible (p : PopupStateManager) : Bool :=
  p.state == OPENING || p.state == OPEN

/-- isInteractive of the source: state is OPEN. -/
def isInteractive (p : PopupStateManager) : Bool :=
  p.state == OPEN

/-- cancelPendingTransition: clearTimeout of any pending transition. -/
def cancelPendingTransition (p : PopupStateManager) : PopupStateManager :=
  { p with pendingTransition := none }

/-- open(position) of the source. The `onPositionNeeded` and
`onStateChange` callbacks and the repositioning do not touch manager
state and are not modelled; `position` is kept as an argument for
fidelity to the signature. -/
def open' (position : String) (p : PopupStateManager) : PopupStateManager :=
  let p := cancelPendingTransition p
  if p.state = OPEN then p
  else
    let p := if p.state = CLOSING then { p with fading := false } else p
    { p with state := OPENING, active := true, interactive := false,
             pendingTransition := some PendingKind.toOpen }

/-- close() of the source. -/
def close (p : PopupStateManager) : PopupStateManager :=
  let p := cancelPendingTransition p
  if p.state = CLOSED ∨ p.state = CLOSING then p
  else
    { p with interactive := false, state := CLOSING, fading := true,
             pendingTransition := some PendingKind.toClose }

/-- The pending setTimeout callback firing. A timeout cleared by
`cancelPendingTransition` never fires, so firing with no pending
transition is a no-op; the callbacks themselves re-check the state
exactly as the source does. -/
def firePendingTransition (p : PopupStateManager) : PopupStateManager :=
  match p.pendingTransition with
  | none => p
  | some PendingKind.toOpen =>
      let p := { p with pendingTransition := none }
      if p.state = OPENING then
        { p with state := OPEN, interactive := true }
      else p
  | some PendingKind.toClose =>
      let p := { p with pendingTransition := none }
      if p.state = CLOSING then
        { p with state := CLOSED, active := false, fading := false }
      else p

/-- forceClose() of the source. -/
def forceClose (p : PopupStateManager) : PopupStateManager :=
  let p := cancelPendingTransition p
  { p with state := CLOSED, active := false, fading := false, interactive := false }

/-- External events that drive the popup state machine. -/
inductive Event where
  | openEvent (position : String)
  | closeEvent
  | forceCloseEvent
  | fireEvent
deriving DecidableEq

/-- One event step of the machine. -/
def step (p : PopupStateManager) (e : Event) : PopupStateManager :=
  match e with
  | Event.openEvent position => open' position p
  | Event.closeEvent => close p
  | Event.forceCloseEvent => forceClose p
  | Event.fireEvent => firePendingTransition p

/-- Run a sequence of events from a starting state. -/
def run (p : PopupStateManager) (es : List Event) : PopupStateManager :=
  es.foldl step p

/-- The four state strings of the STATES table. -/
def stateTable : List String := [CLOSED, OPENING, OPEN, CLOSING]

end PopupStateManager

/- ═══ Camera controls (CameraControls) ═══ -/

/-- A perspective camera: `lookAt` in the scene graph reorients the
camera toward a target point without moving it, so the camera is its
position together with its current look target. -/
structure Camera (K : Type) where
  position : K × K × K
  lookTarget : K × K × K

/-- State of a `CameraControls` instance: the smoothed and target
angles, input-device state, and the owned camera. The constructor
constants (`minPhi`, `maxPhi`, `dampingFactor`, `rotationSpeed`) are
never reassigned and are modelled as definitions below. -/
structure Controls (K : Type) where
  enabled : Bool
  theta : K
  phi : K
  targetTheta : K
  targetPhi : K
  isDragging : Bool
  previousMouseX : K
  previousMouseY : K
  previousTouchX : K
  previousTouchY : K
  touchStartTime : K
  gyroEnabled : Bool
  gyroCalibrated : Bool
  gyroAlphaOffset : K
  gyroBetaOffset : K
  cursor : String
  camera : Camera K

variable {K : Type} [LinearOrderedField K]

/-- Constructor constant minPhi = Math.PI / 6. -/
def minPhi (pi : K) : K := pi / 6

/-- Constructor constant maxPhi = Math.PI * 5 / 6. -/
def maxPhi (pi : K) : K := pi * 5 / 6

/-- Constructor constant dampingFactor = 0.08. -/
def dampingFactor : K := 0.08

/-- Constructor constant rotationSpeed = 0.003. -/
def rotationSpeed : K := 0.003

/-- THREE.MathUtils.degToRad. -/
def degToRad (pi x : K) : K := x * pi / 180

/-- updateCameraRotation: convert the spherical angles to a Cartesian
look target at distance 100 and call camera.lookAt on it; the camera
stays where it is. -/
def updateCameraRotation (sin cos : K → K) (s : Controls K) : Controls K :=
  let lookDistance : K := 100
  let x := lookDistance * sin s.phi * sin s.theta
  let y := lookDistance * cos s.phi
  let z := -lookDistance * sin s.phi * cos s.theta
  { s with camera := { s.camera with lookTarget := (x, y, z) } }

/-- A mouse event: the client coordinates the handlers read. -/
structure MouseEvent (K : Type) where
  clientX : K
  clientY : K

/-- A single touch point. -/
structure TouchPoint (K : Type) where
  clientX : K
  clientY : K

/-- A touch event: the list of active touches. -/
structure TouchEvent (K : Type) where
  touches : List (TouchPoint K)

/-- A keyboard event: the key string. -/
structure KeyEvent where
  key : String

/-- A deviceorientation event; alpha, beta, gamma may be null. -/
structure OrientationEvent (K : Type) where
  alpha : Option K
  beta : Option K
  gamma : Option K

/-- onMouseDown of src/js/camera-controls.js. -/
def onMouseDown (e : MouseEvent K) (s : Controls K) : Controls K :=
  if !s.enabled then s
  else
    { s with isDragging := true, previousMouseX := e.clientX,
             previousMouseY := e.clientY, cursor := "grabbing" }

/-- onMouseMove of src/js/camera-controls.js: while enabled and
dragging, move the target angles by the pointer delta scaled by
rotationSpeed, clamp the vertical target, and record the new mouse
position. -/
def onMouseMove (pi : K) (e : MouseEvent K) (s : Controls K) : Controls K :=
  if !s.enabled || !s.isDragging then s
  else
    let deltaX := e.clientX - s.previousMouseX
    let deltaY := e.clientY - s.previousMouseY
    let s := { s with targetTheta := s.targetTheta - deltaX * rotationSpeed,
                      targetPhi := s.targetPhi - deltaY * rotationSpeed }
    let s := { s with targetPhi := max (minPhi pi) (min (maxPhi pi) s.targetPhi) }
    { s with previousMouseX := e.clientX, previousMouseY := e.clientY }

/-- onMouseUp of src/js/camera-controls.js. -/
def onMouseUp (s : Controls K) : Controls K :=
  { s with isDragging := false, cursor := "grab" }

/-- onTouchStart of src/js/camera-controls.js; `now` stands for
Date.now(). -/
def onTouchStart (now : K) (e : TouchEvent K) (s : Controls K) : Controls K :=
  if !s.enabled || s.gyroEnabled then s
  else
    match e.touches with
    | [t] =>
        { s with touchStartTime := now, previousTouchX := t.clientX,
                 previousTouchY := t.clientY }
    | _ => s

/-- onTouchMove of src/js/camera-controls.js: like the mouse drag but
1.5 times as sensitive. -/
def onTouchMove (pi : K) (e : TouchEvent K) (s : Controls K) : Controls K :=
  if !s.enabled || s.gyroEnabled then s
  else
    match e.touches with
    | [t] =>
        let deltaX := t.clientX - s.previousTouchX
        let deltaY := t.clientY - s.previousTouchY
        let s := { s with
          targetTheta := s.targetTheta - deltaX * rotationSpeed * 1.5,
          targetPhi := s.targetPhi - deltaY * rotationSpeed * 1.5 }
        let s := { s with targetPhi := max (minPhi pi) (min (maxPhi pi) s.targetPhi) }
        { s with previousTouchX := t.clientX, previousTouchY := t.clientY }
    | _ => s

/-- onTouchEnd of src/js/camera-controls.js: a stub in the source. -/
def onTouchEnd (s : Controls K) : Controls K := s

/-- onKeyDown of src/js/camera-controls.js. -/
def onKeyDown (pi : K) (e : KeyEvent) (s : Controls K) : Controls K :=
  if !s.enabled then s
  else
    let rotateAmount : K := 0.1
    if e.key = "ArrowLeft" ∨ e.key = "a" then
      { s with targetTheta := s.targetTheta + rotateAmount }
    else if e.key = "ArrowRight" ∨ e.key = "d" then
      { s with targetTheta := s.targetTheta - rotateAmount }
    else if e.key = "ArrowUp" ∨ e.key = "w" then
      { s with targetPhi := max (minPhi pi) (s.targetPhi - rotateAmount) }
    else if e.key = "ArrowDown" ∨ e.key = "s" then
      { s with targetPhi := min (maxPhi pi) (s.targetPhi + rotateAmount) }
    else s

/-- handleOrientation of src/js/camera-controls.js: calibrate on the
first reading, derive targetTheta from the compass alpha (negated) and
targetPhi from the front-back tilt beta around a neutral 50 degrees,
then clamp targetPhi. -/
def handleOrientation (pi : K) (e : OrientationEvent K) (s : Controls K) : Controls K :=
  if !s.enabled || !s.gyroEnabled then s
  else
    match e.alpha, e.beta with
    | some alpha, some beta =>
        let s :=
          if !s.gyroCalibrated then
            { s with gyroAlphaOffset := alpha, gyroBetaOffset := beta,
                     gyroCalibrated := true }
          else s
        let alphaRad := degToRad pi (alpha - s.gyroAlphaOffset)
        let s := { s with targetTheta := -alphaRad }
        let neutralBeta : K := 50
        let betaDelta := beta - neutralBeta
        let betaRad := degToRad pi betaDelta
        let s := { s with targetPhi := pi / 2 + betaRad * 0.5 }
        { s with targetPhi := max (minPhi pi) (min (maxPhi pi) s.targetPhi) }
    | _, _ => s

/-- handleOrientation of src/src/js/camera-controls.js: identical to
the copy above except that targetTheta takes the positive alphaRad and
targetPhi subtracts the beta term instead of adding it. -/
def handleOrientationSrc (pi : K) (e : OrientationEvent K) (s : Controls K) : Controls K :=
  if !s.enabled || !s.gyroEnabled then s
  else
    match e.alpha, e.beta with
    | some alpha, some beta =>
        let s :=
          if !s.gyroCalibrated then
            { s with gyroAlphaOffset := alpha, gyroBetaOffset := beta,
                     gyroCalibrated := true }
          else s
        let alphaRad := degToRad pi (alpha - s.gyroAlphaOffset)
        let s := { s with targetTheta := alphaRad }
        let neutralBeta : K := 50
        let betaDelta := beta - neutralBeta
        let betaRad := degToRad pi betaDelta
        let s := { s with targetPhi := pi / 2 - betaRad * 0.5 }
        { s with targetPhi := max (minPhi pi) (min (maxPhi pi) s.targetPhi) }
    | _, _ => s

/-- update of src/js/camera-controls.js: when enabled, move each angle
a dampingFactor fraction of the way toward its target, then reorient
the camera. -/
def update (sin cos : K → K) (s : Controls K) : Controls K :=
  if !s.enabled then s
  else
    let s := { s with
      theta := s.theta + (s.targetTheta - s.theta) * dampingFactor,
      phi := s.phi + (s.targetPhi - s.phi) * dampingFactor }
    updateCameraRotation sin cos s

/-- JavaScript `x || d` for a number that may also be undefined:
`none` models undefined, and 0 is falsy. -/
def falsyOr (x : Option K) (d : K) : K :=
  match x with
  | none => d
  | some v => if v = 0 then d else v

/-- lookAt(theta, phi, instant) of src/js/camera-controls.js. The phi
parameter defaults through `phi || Math.PI / 2`. -/
def lookAt (sin cos : K → K) (pi : K) (theta : K) (phi : Option K)
    (instant : Bool) (s : Controls K) : Controls K :=
  let s := { s with targetTheta := theta, targetPhi := falsyOr phi (pi / 2) }
  if instant then
    let s := { s with theta := s.targetTheta, phi := s.targetPhi }
    updateCameraRotation sin cos s
  else s

/-- lookAtFront of the source. -/
def lookAtFront (sin cos : K → K) (pi : K) (instant : Bool) (s : Controls K) : Controls K :=
  lookAt sin cos pi 0 (some (pi / 2)) instant s

/-- lookAtLeft of the source. -/
def lookAtLeft (sin cos : K → K) (pi : K) (instant : Bool) (s : Controls K) : Controls K :=
  lookAt sin cos pi (-(pi / 3)) (some (pi / 2)) instant s

/-- lookAtRight of the source. -/
def lookAtRight (sin cos : K → K) (pi : K) (instant : Bool) (s : Controls K) : Controls K :=
  lookAt sin cos pi (pi / 3) (some (pi / 2)) instant s

/-- lookAtBack of the source. -/
def lookAtBack (sin cos : K → K) (pi : K) (instant : Bool) (s : Controls K) : Controls K :=
  lookAt sin cos pi pi (some (pi / 2)) instant s

/-- lookAtSkillPopup of src/src/js/camera-controls.js: pan toward the
skills panel with a small offset per popup position, then clamp the
vertical target. -/
def lookAtSkillPopup (pi : K) (position : String) (s : Controls K) : Controls K :=
  let baseTheta : K := -(pi / 3)
  let offsets : K × K :=
    if position = "top-left" then (-0.35, -0.15)
    else if position = "top-right" then (0.35, -0.15)
    else if position = "bottom" then (0, 0.15)
    else (0, 0)
  let s := { s with targetTheta := baseTheta + offsets.1,
                    targetPhi := pi / 2 + offsets.2 }
  { s with targetPhi := max (minPhi pi) (min (maxPhi pi) s.targetPhi) }

/-- Constructor state of CameraControls (with the camera of
PortfolioScene.createCamera, which sits at the origin): disabled,
looking at the horizon, then updateCameraRotation once. -/
def initialControls (sin cos : K → K) (pi : K) : Controls K :=
  updateCameraRotation sin cos
    { enabled := false, theta := 0, phi := pi / 2, targetTheta := 0,
      targetPhi := pi / 2, isDragging := false, previousMouseX := 0,
      previousMouseY := 0, previousTouchX := 0, previousTouchY := 0,
      touchStartTime := 0, gyroEnabled := false, gyroCalibrated := false,
      gyroAlphaOffset := 0, gyroBetaOffset := 0, cursor := "grab",
      camera := { position := (0, 0, 0), lookTarget := (0, 0, 0) } }

/- ═══ WebGL feature detection (initPortfolio) ═══ -/

/-- A constructed PortfolioScene, abstracted to the fact of its
construction: the claim under verification concerns only whether a
scene object is created and exposed, not its contents. -/
structure PortfolioSceneObj where
  isInitialized : Bool
deriving DecidableEq

/-- The `new PortfolioScene()` expression: `init()` ends by setting
isInitialized to true. -/
def newPortfolioScene : PortfolioSceneObj := { isInitialized := true }

/-- Browser-global state read and written by initPortfolio: presence
of window.WebGLRenderingContext, the document body class list, the
module-level `portfolioScene` binding (initially null), and the
`window.portfolioScene` property. -/
structure BrowserState where
  hasWebGLRenderingContext : Bool
  bodyClasses : List String
  portfolioScene : Option PortfolioSceneObj
  windowPortfolioScene : Option PortfolioSceneObj
deriving DecidableEq

/-- DOM classList.add: appends the class unless already present. -/
def classListAdd (cls : String) (classes : List String) : List String :=
  if cls ∈ classes then classes else classes ++ [cls]

/-- initPortfolio of the scene file: without WebGL support, warn, tag
the body with the fallback-2d class and return; otherwise construct
the scene, store it in `portfolioScene` and expose it on the window. -/
def initPortfolio (b : BrowserState) : BrowserState :=
  if !b.hasWebGLRenderingContext then
    { b with bodyClasses := classListAdd ("fallback-2d") b.bodyClasses }
  else
    let ps := newPortfolioScene
    { b with portfolioScene := some ps, windowPortfolioScene := some ps }

/- ═══ Specification predicates ═══ -/

/-- The effect one enabled update() call has on the angles: the exact
damped step, the factor 0.92 contraction of the distance to each
target, no overshoot past the target, the angle being a fixed point
exactly when it already equals its target, and the targets themselves
being left unchanged. -/
def UpdateSpec (sin cos : K → K) (s : Controls K) : Prop :=
  (update sin cos s).theta = s.theta + (s.targetTheta - s.theta) * 0.08
  ∧ (update sin cos s).phi = s.phi + (s.targetPhi - s.phi) * 0.08
  ∧ |s.targetTheta - (update sin cos s).theta| = 0.92 * |s.targetTheta - s.theta|
  ∧ |s.targetPhi - (update sin cos s).phi| = 0.92 * |s.targetPhi - s.phi|
  ∧ min s.theta s.targetTheta ≤ (update sin cos s).theta
  ∧ (update sin cos s).theta ≤ max s.theta s.targetTheta
  ∧ min s.phi s.targetPhi ≤ (update sin cos s).phi
  ∧ (update sin cos s).phi ≤ max s.phi s.targetPhi
  ∧ ((update sin cos s).theta = s.theta ↔ s.theta = s.targetTheta)
  ∧ ((update sin cos s).phi = s.phi ↔ s.phi = s.targetPhi)
  ∧ (update sin cos s).targetTheta = s.targetTheta
  ∧ (update sin cos s).targetPhi = s.targetPhi

/-- The effect of one mousemove event: while enabled and dragging,
targetTheta drops by deltaX * 0.003 and targetPhi is the clamp of
targetPhi - deltaY * 0.003 into [pi/6, 5*pi/6]; otherwise both targets
are untouched. -/
def MouseMoveSpec (pi : K) (e : MouseEvent K) (s : Controls K) : Prop :=
  (s.enabled = true ∧ s.isDragging = true →
    (onMouseMove pi e s).targetTheta
        = s.targetTheta - (e.clientX - s.previousMouseX) * 0.003
    ∧ (onMouseMove pi e s).targetPhi
        = max (pi / 6) (min (pi * 5 / 6)
            (s.targetPhi - (e.clientY - s.previousMouseY) * 0.003)))
  ∧ (¬(s.enabled = true ∧ s.isDragging = true) →
    (onMouseMove pi e s).targetTheta = s.targetTheta
    ∧ (onMouseMove pi e s).targetPhi = s.targetPhi)

/-- The camera never moves: every handler and public method leaves
camera.position unchanged, and updateCameraRotation aims the camera at
the point (100 sin(phi) sin(theta), 100 cos(phi), -100 sin(phi) cos(theta))
computed from the two angles alone. -/
def CameraFixedSpec (sin cos : K → K) (pi : K) : Prop :=
  (∀ s : Controls K,
      (updateCameraRotation sin cos s).camera.position = s.camera.position
    ∧ (updateCameraRotation sin cos s).camera.lookTarget
        = (100 * sin s.phi * sin s.theta, 100 * cos s.phi,
           -(100 * sin s.phi * cos s.theta)))
  ∧ (∀ (s : Controls K) (e : MouseEvent K),
      (onMouseDown e s).camera.position = s.camera.position)
  ∧ (∀ (s : Controls K) (e : MouseEvent K),
      (onMouseMove pi e s).camera.position = s.camera.position)
  ∧ (∀ s : Controls K, (onMouseUp s).camera.position = s.camera.position)
  ∧ (∀ (s : Controls K) (now : K) (e : TouchEvent K),
      (onTouchStart now e s).camera.position = s.camera.position)
  ∧ (∀ (s : Controls K) (e : TouchEvent K),
      (onTouchMove pi e s).camera.position = s.camera.position)
  ∧ (∀ s : Controls K, (onTouchEnd s).camera.position = s.camera.position)
  ∧ (∀ (s : Controls K) (e : KeyEvent),
      (onKeyDown pi e s).camera.position = s.camera.position)
  ∧ (∀ (s : Controls K) (e : OrientationEvent K),
      (handleOrientation pi e s).camera.position = s.camera.position)
  ∧ (∀ (s : Controls K) (e : OrientationEvent K),
      (handleOrientationSrc pi e s).camera.position = s.camera.position)
  ∧ (∀ s : Controls K, (update sin cos s).camera.position = s.camera.position)
  ∧ (∀ (s : Controls K) (theta : K) (phi : Option K) (instant : Bool),
      (lookAt sin cos pi theta phi instant s).camera.position = s.camera.position)
  ∧ (∀ (s : Controls K) (instant : Bool),
      (lookAtFront sin cos pi instant s).camera.position = s.camera.position)
  ∧ (∀ (s : Controls K) (instant : Bool),
      (lookAtLeft sin cos pi instant s).camera.position = s.camera.position)
  ∧ (∀ (s : Controls K) (instant : Bool),
      (lookAtRight sin cos pi instant s).camera.position = s.camera.position)
  ∧ (∀ (s : Controls K) (instant : Bool),
      (lookAtBack sin cos pi instant s).camera.position = s.camera.position)
  ∧ (∀ (s : Controls K) (position : String),
      (lookAtSkillPopup pi position s).camera.position = s.camera.position)

/-- The effect of initPortfolio on browser state, for an initial state
whose scene bindings are still null. -/
def InitPortfolioSpec (b : BrowserState) : Prop :=
  ((initPortfolio b).portfolioScene.isSome = b.hasWebGLRenderingContext)
  ∧ ((initPortfolio b).windowPortfolioScene.isSome = b.hasWebGLRenderingContext)
  ∧ (b.hasWebGLRenderingContext = true →
      (initPortfolio b).portfolioScene = some newPortfolioScene
      ∧ (initPortfolio b).windowPortfolioScene = (initPortfolio b).portfolioScene
      ∧ (initPortfolio b).bodyClasses = b.bodyClasses)
  ∧ (b.hasWebGLRenderingContext = false →
      ("fallback-2d") ∈ (initPortfolio b).bodyClasses
      ∧ (initPortfolio b).portfolioScene = none
      ∧ (initPortfolio b).windowPortfolioScene = b.windowPortfolioScene)

/-- Membership of an angle in the pitch constraint band
[minPhi, maxPhi] = [pi/6, 5*pi/6]. -/
def PhiBand (pi x : K) : Prop := pi / 6 ≤ x ∧ x ≤ pi * 5 / 6

/-- Every event handler keeps the pitch target inside the constraint
band, while the public lookAt method can escape it. -/
def PhiBandSpec (pi : K) : Prop :=
  (∀ (e : MouseEvent K) (s : Controls K),
      PhiBand pi s.targetPhi → PhiBand pi (onMouseMove pi e s).targetPhi)
  ∧ (∀ (e : TouchEvent K) (s : Controls K),
      PhiBand pi s.targetPhi → PhiBand pi (onTouchMove pi e s).targetPhi)
  ∧ (∀ (e : KeyEvent) (s : Controls K),
      PhiBand pi s.targetPhi → PhiBand pi (onKeyDown pi e s).targetPhi)
  ∧ (∀ (e : OrientationEvent K) (s : Controls K),
      PhiBand pi s.targetPhi → PhiBand pi (handleOrientation pi e s).targetPhi)
  ∧ (∀ (position : String) (s : Controls K),
      PhiBand pi s.targetPhi → PhiBand pi (lookAtSkillPopup pi position s).targetPhi)
  ∧ (∃ (sin cos : K → K) (theta : K) (phi : Option K) (s : Controls K),
      PhiBand pi s.targetPhi
      ∧ ¬ PhiBand pi (lookAt sin cos pi theta phi false s).targetPhi)

/-- The falsy-phi edge case of lookAt: a phi argument of exactly 0 is
replaced by pi/2 (the same value an omitted phi produces), and no call
can make targetPhi exactly 0. -/
def LookAtFalsySpec (pi : K) : Prop :=
  (∀ (sin cos : K → K) (theta : K) (instant : Bool) (s : Controls K),
      (lookAt sin cos pi theta (some 0) instant s).targetPhi = pi / 2)
  ∧ (∀ (sin cos : K → K) (theta : K) (instant : Bool) (s : Controls K),
      (lookAt sin cos pi theta (some 0) instant s).targetPhi
        = (lookAt sin cos pi theta none instant s).targetPhi)
  ∧ (∀ (sin cos : K → K) (theta : K) (phi : Option K) (instant : Bool)
        (s : Controls K),
      (lookAt sin cos pi theta phi instant s).targetPhi ≠ 0)

/-- How the two copies of handleOrientation actually relate on a
processed event: their horizontal targets are negatives of each other
and their vertical targets are reflections about pi/2 (they sum
to pi). -/
def GyroMirrorSpec (pi : K) (e : OrientationEvent K) (s : Controls K) : Prop :=
  (handleOrientation pi e s).targetTheta
      = -((handleOrientationSrc pi e s).targetTheta)
  ∧ (handleOrientation pi e s).targetPhi
      + (handleOrientationSrc pi e s).targetPhi = pi

/- ═══ Concrete sample inputs for witnesses and counterexamples ═══ -/

/-- A concrete rational stand-in for Math.PI used by witness
instances; each witness only needs positivity, never the value. -/
def piQ : ℚ := 3

/-- A concrete enabled controls state over ℚ. -/
def sampleControls : Controls ℚ :=
  { enabled := true, theta := 1, phi := 1, targetTheta := 2, targetPhi := 2,
    isDragging := true, previousMouseX := 4, previousMouseY := 5,
    previousTouchX := 0, previousTouchY := 0, touchStartTime := 0,
    gyroEnabled := true, gyroCalibrated := true, gyroAlphaOffset := 0,
    gyroBetaOffset := 50, cursor := "grab",
    camera := { position := (0, 0, 0), lookTarget := (0, 0, 0) } }

/-- A concrete deviceorientation event over ℚ: ten degrees of compass
offset from calibration, neutral tilt. -/
def sampleOrientation : OrientationEvent ℚ :=
  { alpha := some 10, beta := some 50, gamma := some 0 }

/-- A concrete browser state with WebGL available and the scene
bindings still null. -/
def sampleBrowser : BrowserState :=
  { hasWebGLRenderingContext := true, bodyClasses := [], portfolioScene := none,
    windowPortfolioScene := none }

/-- A concrete mouse event over ℚ. -/
def sampleMouseEvent : MouseEvent ℚ := { clientX := 14, clientY := 15 }

/- ═══ Helper lemmas ═══ -/

namespace PopupStateManager

/-- The state string open(position) produces: OPENING, unless the
manager was already fully OPEN. -/
theorem open_state (position : String) (p : PopupStateManager) :
    (open' position p).state = OPENING ∨ (open' position p).state = p.state := by
  unfold open' cancelPendingTransition
  by_cases h : p.state = OPEN
  · simp [h]
  · simp [h]

/-- The state string close() produces: CLOSING, unless the manager was
already CLOSED or CLOSING. -/
theorem close_state (p : PopupStateManager) :
    (close p).state = CLOSING ∨ (close p).state = p.state := by
  unfold close cancelPendingTransition
  by_cases h : p.state = CLOSED ∨ p.state = CLOSING
  · simp [h]
  · simp [h]

/-- forceClose() always lands on CLOSED. -/
theorem forceClose_state (p : PopupStateManager) :
    (forceClose p).state = CLOSED := rfl

/-- A firing pending transition lands on OPEN or CLOSED, or leaves the
state string alone. -/
theorem fire_state (p : PopupStateManager) :
    (firePendingTransition p).state = OPEN
    ∨ (firePendingTransition p).state = CLOSED
    ∨ (firePendingTransition p).state = p.state := by
  unfold firePendingTransition
  rcases hp : p.pendingTransition with _ | k
  · simp
  · cases k
    · by_cases h : p.state = OPENING
      · simp [h]
      · simp [h]
    · by_cases h : p.state = CLOSING
      · simp [h]
      · simp [h]

/-- A single step from a state whose state string is in the STATES
table stays in the table. -/
theorem step_state_mem (p : PopupStateManager) (e : Event)
    (h : p.state ∈ stateTable) : (step p e).state ∈ stateTable := by
  cases e with
  | openEvent position =>
      rcases open_state position p with h' | h' <;>
        simp only [step, h', stateTable] at h ⊢ <;> simp_all [stateTable]
  | closeEvent =>
      rcases close_state p with h' | h' <;>
        simp only [step, h', stateTable] at h ⊢ <;> simp_all [stateTable]
  | forceCloseEvent =>
      simp [step, forceClose_state, stateTable]
  | fireEvent =>
      rcases fire_state p with h' | h' | h' <;>
        simp only [step, h', stateTable] at h ⊢ <;> simp_all [stateTable]

/-- Runs preserve membership of the state string in the STATES table. -/
theorem run_state_mem (es : List Event) (p : PopupStateManager)
    (h : p.state ∈ stateTable) : (run p es).state ∈ stateTable := by
  induction es generalizing p with
  | nil => simpa [run] using h
  | cons e es ih =>
      simp only [run, List.foldl_cons]
      exact ih (step p e) (step_state_mem p e h)

end PopupStateManager

/- ═══ Claim theorems ═══ -/

/-- C1: the popup state machine gates visibility and interactivity by
state: isVisible holds exactly in OPENING and OPEN, isInteractive
exactly in OPEN, and interactivity implies visibility. -/
theorem popup_gating_by_state (p : PopupStateManager) :
    (p.isVisible = true ↔
      p.state = PopupStateManager.OPENING ∨ p.state = PopupStateManager.OPEN)
  ∧ (p.isInteractive = true ↔ p.state = PopupStateManager.OPEN)
  ∧ (p.isInteractive = true → p.isVisible = true) := by
  refine ⟨?_, ?_, ?_⟩
  · simp [PopupStateManager.isVisible]
  · simp [PopupStateManager.isInteractive]
  · intro h
    simp only [PopupStateManager.isInteractive, beq_iff_eq] at h
    simp [PopupStateManager.isVisible, h]

/-- C2: from any manager state, open(position) followed by close()
schedules a closing transition, and once that pending transition
fires the machine is CLOSED with the active, fading and interactive
classes all removed. -/
theorem popup_open_close_roundtrip (p : PopupStateManager) (position : String) :
    (p.open' position).close.pendingTransition = some PendingKind.toClose
  ∧ (p.open' position).close.firePendingTransition.state = PopupStateManager.CLOSED
  ∧ (p.open' position).close.firePendingTransition.active = false
  ∧ (p.open' position).close.firePendingTransition.fading = false
  ∧ (p.open' position).close.firePendingTransition.interactive = false := by
  unfold PopupStateManager.open' PopupStateManager.close
    PopupStateManager.firePendingTransition PopupStateManager.cancelPendingTransition
  simp only [PopupStateManager.OPEN, PopupStateManager.CLOSED,
    PopupStateManager.CLOSING, PopupStateManager.OPENING]
  by_cases h : p.state = "open" <;> simp [h]

/-- C3: starting from the initial CLOSED state, every state string
reachable through any sequence of open, close, forceClose and
pending-transition firings stays inside the four-entry STATES table. -/
theorem popup_reachable_states (es : List PopupStateManager.Event) :
    (PopupStateManager.initial.run es).state ∈ PopupStateManager.stateTable :=
  PopupStateManager.run_state_mem es PopupStateManager.initial
    (by simp [PopupStateManager.initial, PopupStateManager.stateTable])

/- ═══ Arithmetic helper lemmas ═══ -/

/-- One damped step keeps the absolute distance to the target at
exactly a 0.92 fraction of what it was. -/
theorem damp_step_abs (x t : K) :
    |t - (x + (t - x) * 0.08)| = 0.92 * |t - x| := by
  have h : t - (x + (t - x) * 0.08) = 0.92 * (t - x) := by ring
  rw [h, abs_mul, abs_of_nonneg (by norm_num : (0:K) ≤ 0.92)]

/-- One damped step never leaves the closed interval between the
current value and the target. -/
theorem damp_step_bounds (x t : K) :
    min x t ≤ x + (t - x) * 0.08 ∧ x + (t - x) * 0.08 ≤ max x t := by
  rcases le_total x t with h | h
  · rw [min_eq_left h, max_eq_right h]
    constructor <;> nlinarith
  · rw [min_eq_right h, max_eq_left h]
    constructor <;> nlinarith

/-- A damped step is stationary exactly at the target. -/
theorem damp_step_fixed (x t : K) : x + (t - x) * 0.08 = x ↔ x = t := by
  constructor
  · intro hx
    have h8 : (t - x) * 0.08 = 0 := by linarith
    rcases mul_eq_zero.mp h8 with h0 | h0
    · linarith
    · exfalso
      norm_num at h0
  · intro hx
    rw [hx]
    ring

/-- Clamping into [minPhi, maxPhi] lands inside the band whenever pi
is nonnegative. -/
theorem clamp_mem_band (pi x : K) (hpi : 0 ≤ pi) :
    PhiBand pi (max (minPhi pi) (min (maxPhi pi) x)) := by
  unfold PhiBand minPhi maxPhi
  refine ⟨le_max_left _ _, max_le (by linarith) (min_le_left _ _)⟩

/-- The clamp of a reflected argument is the reflected clamp: the two
clamped values sum to pi. -/
theorem clamp_reflect (pi x : K) (hpi : 0 ≤ pi) :
    max (minPhi pi) (min (maxPhi pi) (pi - x))
      + max (minPhi pi) (min (maxPhi pi) x) = pi := by
  unfold minPhi maxPhi
  rcases le_total x (pi / 6) with h1 | h1
  · rw [min_eq_right (by linarith : x ≤ pi * 5 / 6),
      max_eq_left h1,
      min_eq_left (by linarith : pi * 5 / 6 ≤ pi - x),
      max_eq_right (by linarith : pi / 6 ≤ pi * 5 / 6)]
    ring
  · rcases le_total x (pi * 5 / 6) with h2 | h2
    · rw [min_eq_right h2, max_eq_right h1,
        min_eq_right (by linarith : pi - x ≤ pi * 5 / 6),
        max_eq_right (by linarith : pi / 6 ≤ pi - x)]
      ring
    · rw [min_eq_left h2, max_eq_right (by linarith : pi / 6 ≤ pi * 5 / 6),
        min_eq_right (by linarith : pi - x ≤ pi * 5 / 6),
        max_eq_left (by linarith : pi - x ≤ pi / 6)]
      ring

/- ═══ C4 and C5 ═══ -/

/-- C4: one enabled update() call performs the exact damped step on
both angles, contracts the distance to each target by the factor 0.92,
never overshoots, is stationary exactly at the target, and leaves the
targets unchanged. -/
theorem update_smooths_toward_targets (sin cos : K → K) (s : Controls K)
    (h : s.enabled = true) : UpdateSpec sin cos s := by
  have e1 : (update sin cos s).theta
      = s.theta + (s.targetTheta - s.theta) * 0.08 := by
    simp [update, updateCameraRotation, dampingFactor, h]
  have e2 : (update sin cos s).phi
      = s.phi + (s.targetPhi - s.phi) * 0.08 := by
    simp [update, updateCameraRotation, dampingFactor, h]
  have e3 : (update sin cos s).targetTheta = s.targetTheta := by
    simp [update, updateCameraRotation, h]
  have e4 : (update sin cos s).targetPhi = s.targetPhi := by
    simp [update, updateCameraRotation, h]
  unfold UpdateSpec
  rw [e1, e2, e3, e4]
  exact ⟨rfl, rfl, damp_step_abs s.theta s.targetTheta,
    damp_step_abs s.phi s.targetPhi,
    (damp_step_bounds s.theta s.targetTheta).1,
    (damp_step_bounds s.theta s.targetTheta).2,
    (damp_step_bounds s.phi s.targetPhi).1,
    (damp_step_bounds s.phi s.targetPhi).2,
    damp_step_fixed s.theta s.targetTheta,
    damp_step_fixed s.phi s.targetPhi, rfl, rfl⟩

/-- C4 witness: the update specification discharged at a concrete
enabled state over the rationals. -/
theorem update_smooths_toward_targets_witness :
    sampleControls.enabled = true
    ∧ UpdateSpec (fun x => x) (fun x => x) sampleControls :=
  ⟨rfl, update_smooths_toward_targets (fun x => x) (fun x => x) sampleControls rfl⟩

/-- C5: a mousemove during an enabled drag moves targetTheta down by
deltaX * 0.003 and sets targetPhi to the clamped targetPhi - deltaY *
0.003; otherwise both targets are untouched. -/
theorem mousemove_updates_target_angles (pi : K) (e : MouseEvent K)
    (s : Controls K) : MouseMoveSpec pi e s := by
  unfold MouseMoveSpec
  constructor
  · rintro ⟨h1, h2⟩
    constructor <;>
      simp [onMouseMove, h1, h2, rotationSpeed, minPhi, maxPhi]
  · intro h
    cases hs : s.enabled <;> cases hd : s.isDragging <;>
      simp_all [onMouseMove]

/- ═══ Position-preservation helper lemmas ═══ -/

/-- updateCameraRotation leaves camera.position alone. -/
theorem updateCameraRotation_position (sin cos : K → K) (s : Controls K) :
    (updateCameraRotation sin cos s).camera.position = s.camera.position := rfl

/-- updateCameraRotation writes exactly the spherical-to-Cartesian
look target of the two angles. -/
theorem updateCameraRotation_lookTarget (sin cos : K → K) (s : Controls K) :
    (updateCameraRotation sin cos s).camera.lookTarget
      = (100 * sin s.phi * sin s.theta, 100 * cos s.phi,
         -(100 * sin s.phi * cos s.theta)) := by
  unfold updateCameraRotation
  simp [Prod.ext_iff]

/-- onMouseDown leaves camera.position alone. -/
theorem onMouseDown_position (e : MouseEvent K) (s : Controls K) :
    (onMouseDown e s).camera.position = s.camera.position := by
  unfold onMouseDown
  split <;> rfl

/-- onMouseMove leaves camera.position alone. -/
theorem onMouseMove_position (pi : K) (e : MouseEvent K) (s : Controls K) :
    (onMouseMove pi e s).camera.position = s.camera.position := by
  unfold onMouseMove
  split <;> rfl

/-- onMouseUp leaves camera.position alone. -/
theorem onMouseUp_position (s : Controls K) :
    (onMouseUp s).camera.position = s.camera.position := rfl

/-- onTouchStart leaves camera.position alone. -/
theorem onTouchStart_position (now : K) (e : TouchEvent K) (s : Controls K) :
    (onTouchStart now e s).camera.position = s.camera.position := by
  unfold onTouchStart
  split
  · rfl
  · split <;> rfl

/-- onTouchMove leaves camera.position alone. -/
theorem onTouchMove_position (pi : K) (e : TouchEvent K) (s : Controls K) :
    (onTouchMove pi e s).camera.position = s.camera.position := by
  unfold onTouchMove
  split
  · rfl
  · split <;> rfl

/-- onKeyDown leaves camera.position alone. -/
theorem onKeyDown_position (pi : K) (e : KeyEvent) (s : Controls K) :
    (onKeyDown pi e s).camera.position = s.camera.position := by
  unfold onKeyDown
  split
  · rfl
  · split
    · rfl
    · split
      · rfl
      · split
        · rfl
        · split <;> rfl

/-- handleOrientation leaves camera.position alone. -/
theorem handleOrientation_position (pi : K) (e : OrientationEvent K)
    (s : Controls K) :
    (handleOrientation pi e s).camera.position = s.camera.position := by
  unfold handleOrientation
  split
  · rfl
  · rcases e with ⟨a, b, g⟩
    cases a <;> cases b <;> simp <;> split <;> rfl

/-- The src copy of handleOrientation leaves camera.position alone. -/
theorem handleOrientationSrc_position (pi : K) (e : OrientationEvent K)
    (s : Controls K) :
    (handleOrientationSrc pi e s).camera.position = s.camera.position := by
  unfold handleOrientationSrc
  split
  · rfl
  · rcases e with ⟨a, b, g⟩
    cases a <;> cases b <;> simp <;> split <;> rfl

/-- update leaves camera.position alone. -/
theorem update_position (sin cos : K → K) (s : Controls K) :
    (update sin cos s).camera.position = s.camera.position := by
  unfold update updateCameraRotation
  split <;> rfl

/-- lookAt leaves camera.position alone. -/
theorem lookAt_position (sin cos : K → K) (pi theta : K) (phi : Option K)
    (instant : Bool) (s : Controls K) :
    (lookAt sin cos pi theta phi instant s).camera.position
      = s.camera.position := by
  unfold lookAt updateCameraRotation
  split <;> rfl

/-- lookAtSkillPopup leaves camera.position alone. -/
theorem lookAtSkillPopup_position (pi : K) (position : String) (s : Controls K) :
    (lookAtSkillPopup pi position s).camera.position = s.camera.position := rfl

/-- C6: the camera never leaves the origin of its frame: every input
handler and public method preserves camera.position, and
updateCameraRotation aims the camera at the point derived from the two
angles alone. -/
theorem camera_position_fixed (sin cos : K → K) (pi : K) :
    CameraFixedSpec sin cos pi := by
  unfold CameraFixedSpec
  exact ⟨fun s => ⟨updateCameraRotation_position sin cos s,
      updateCameraRotation_lookTarget sin cos s⟩,
    fun s e => onMouseDown_position e s,
    fun s e => onMouseMove_position pi e s,
    fun s => onMouseUp_position s,
    fun s now e => onTouchStart_position now e s,
    fun s e => onTouchMove_position pi e s,
    fun s => rfl,
    fun s e => onKeyDown_position pi e s,
    fun s e => handleOrientation_position pi e s,
    fun s e => handleOrientationSrc_position pi e s,
    fun s => update_position sin cos s,
    fun s theta phi instant => lookAt_position sin cos pi theta phi instant s,
    fun s instant => lookAt_position sin cos pi 0 (some (pi / 2)) instant s,
    fun s instant => lookAt_position sin cos pi (-(pi / 3)) (some (pi / 2)) instant s,
    fun s instant => lookAt_position sin cos pi (pi / 3) (some (pi / 2)) instant s,
    fun s instant => lookAt_position sin cos pi pi (some (pi / 2)) instant s,
    fun s position => lookAtSkillPopup_position pi position s⟩

/- ═══ Band-preservation helper lemmas ═══ -/

/-- onMouseMove keeps the pitch target in the band. -/
theorem onMouseMove_band (pi : K) (e : MouseEvent K) (s : Controls K)
    (hpi : 0 ≤ pi) (h : PhiBand pi s.targetPhi) :
    PhiBand pi (onMouseMove pi e s).targetPhi := by
  unfold onMouseMove
  split
  · exact h
  · exact clamp_mem_band pi _ hpi

/-- onTouchMove keeps the pitch target in the band. -/
theorem onTouchMove_band (pi : K) (e : TouchEvent K) (s : Controls K)
    (hpi : 0 ≤ pi) (h : PhiBand pi s.targetPhi) :
    PhiBand pi (onTouchMove pi e s).targetPhi := by
  unfold onTouchMove
  split
  · exact h
  · split
    · exact clamp_mem_band pi _ hpi
    · exact h

/-- onKeyDown keeps the pitch target in the band. -/
theorem onKeyDown_band (pi : K) (e : KeyEvent) (s : Controls K)
    (hpi : 0 ≤ pi) (h : PhiBand pi s.targetPhi) :
    PhiBand pi (onKeyDown pi e s).targetPhi := by
  unfold onKeyDown
  split
  · exact h
  · split
    · exact h
    · split
      · exact h
      · split
        · refine ⟨le_max_left _ _, max_le ?_ ?_⟩
          · try simp only [minPhi, maxPhi]
            linarith
          · try simp only [minPhi, maxPhi]
            linarith [h.2]
        · split
          · refine ⟨le_min ?_ ?_, min_le_left _ _⟩
            · try simp only [minPhi, maxPhi]
              linarith
            · try simp only [minPhi, maxPhi]
              linarith [h.1]
          · exact h

/-- handleOrientation keeps the pitch target in the band. -/
theorem handleOrientation_band (pi : K) (e : OrientationEvent K)
    (s : Controls K) (hpi : 0 ≤ pi) (h : PhiBand pi s.targetPhi) :
    PhiBand pi (handleOrientation pi e s).targetPhi := by
  unfold handleOrientation
  split
  · exact h
  · rcases e with ⟨a, b, g⟩
    cases a with
    | none => exact h
    | some av =>
        cases b with
        | none => exact h
        | some bv => split <;> exact clamp_mem_band pi _ hpi

/-- lookAtSkillPopup keeps the pitch target in the band. -/
theorem lookAtSkillPopup_band (pi : K) (position : String) (s : Controls K)
    (hpi : 0 ≤ pi) : PhiBand pi (lookAtSkillPopup pi position s).targetPhi := by
  unfold lookAtSkillPopup
  exact clamp_mem_band pi _ hpi

/- ═══ C7, C8, C9, C10 ═══ -/

/-- C7: initPortfolio constructs and exposes a scene exactly when
window.WebGLRenderingContext exists; without it the body gets the
fallback-2d class and both scene bindings stay null. -/
theorem initPortfolio_feature_detection (b : BrowserState)
    (h : b.portfolioScene = none) (hw : b.windowPortfolioScene = none) :
    InitPortfolioSpec b := by
  unfold InitPortfolioSpec initPortfolio classListAdd
  cases hb : b.hasWebGLRenderingContext
  · simp only [hb, Bool.not_false, if_true]
    refine ⟨by simp [h], by simp [hw], by simp, fun _ => ⟨?_, by simp [h], by simp⟩⟩
    split
    · assumption
    · simp
  · simp [hb]

/-- C7 witness: the feature-detection specification discharged at a
concrete browser state. -/
theorem initPortfolio_feature_detection_witness :
    sampleBrowser.portfolioScene = none
    ∧ sampleBrowser.windowPortfolioScene = none
    ∧ InitPortfolioSpec sampleBrowser :=
  ⟨rfl, rfl, initPortfolio_feature_detection sampleBrowser rfl rfl⟩

/-- C8: every event handler keeps targetPhi inside [pi/6, 5*pi/6],
while the public lookAt method can place it outside the band. -/
theorem targetPhi_band_invariant (pi : K) (hpi : 0 < pi) : PhiBandSpec pi := by
  unfold PhiBandSpec
  refine ⟨fun e s h => onMouseMove_band pi e s hpi.le h,
    fun e s h => onTouchMove_band pi e s hpi.le h,
    fun e s h => onKeyDown_band pi e s hpi.le h,
    fun e s h => handleOrientation_band pi e s hpi.le h,
    fun position s h => lookAtSkillPopup_band pi position s hpi.le,
    ?_⟩
  refine ⟨fun x => x, fun x => x, 0, some pi,
    initialControls (fun x => x) (fun x => x) pi, ?_, ?_⟩
  · show PhiBand pi (pi / 2)
    exact ⟨by linarith, by linarith⟩
  · have ht : (lookAt (fun x => x) (fun x => x) pi 0 (some pi) false
        (initialControls (fun x => x) (fun x => x) pi)).targetPhi = pi := by
      simp [lookAt, falsyOr, hpi.ne']
    rw [ht]
    intro hb
    have h2 := hb.2
    linarith

/-- C8 witness: the band-invariant specification discharged at the
concrete positive rational pi. -/
theorem targetPhi_band_invariant_witness : (0 : ℚ) < piQ ∧ PhiBandSpec piQ :=
  ⟨by decide, targetPhi_band_invariant piQ (by decide)⟩

/-- C9: a lookAt call with phi exactly 0 sets targetPhi to pi/2, the
same value an omitted phi produces, and no lookAt call can set
targetPhi to 0. -/
theorem lookAt_falsy_phi (pi : K) (hpi : pi ≠ 0) : LookAtFalsySpec pi := by
  have h2 : pi / 2 ≠ 0 := by
    intro h0
    rcases div_eq_zero_iff.mp h0 with h0 | h0
    · exact hpi h0
    · exact two_ne_zero h0
  unfold LookAtFalsySpec
  refine ⟨?_, ?_, ?_⟩
  · intro sin cos theta instant s
    cases instant <;> simp [lookAt, falsyOr, updateCameraRotation]
  · intro sin cos theta instant s
    cases instant <;> simp [lookAt, falsyOr, updateCameraRotation]
  · intro sin cos theta phi instant s
    cases phi with
    | none =>
        cases instant <;>
          simpa [lookAt, falsyOr, updateCameraRotation] using h2
    | some v =>
        by_cases hv : v = 0
        · subst hv
          cases instant <;>
            simpa [lookAt, falsyOr, updateCameraRotation] using h2
        · cases instant <;>
            simpa [lookAt, falsyOr, updateCameraRotation, hv] using hv

/-- C9 witness: the falsy-phi specification discharged at the concrete
nonzero rational pi. -/
theorem lookAt_falsy_phi_witness : (piQ : ℚ) ≠ 0 ∧ LookAtFalsySpec piQ :=
  ⟨by decide, lookAt_falsy_phi piQ (by decide)⟩

/-- C10 counterexample: one identical orientation event delivered to
identical enabled, gyro-enabled, calibrated controls makes the two
copies of handleOrientation disagree on targetTheta. -/
theorem gyro_handlers_not_equivalent :
    ¬ ((handleOrientation piQ sampleOrientation sampleControls).targetTheta
        = (handleOrientationSrc piQ sampleOrientation sampleControls).targetTheta
      ∧ (handleOrientation piQ sampleOrientation sampleControls).targetPhi
        = (handleOrientationSrc piQ sampleOrientation sampleControls).targetPhi) := by
  rintro ⟨h1, h2⟩
  simp [handleOrientation, handleOrientationSrc, sampleOrientation,
    sampleControls, piQ, degToRad] at h1
  norm_num at h1

/-- C10 amended: on every processed orientation event the two copies
of handleOrientation are mirror images: their targetTheta values are
negatives of each other and their targetPhi values sum to pi. -/
theorem gyro_handlers_mirror (pi : K) (e : OrientationEvent K) (s : Controls K)
    (a b : K) (hpi : 0 ≤ pi) (hen : s.enabled = true) (hgy : s.gyroEnabled = true)
    (hcal : s.gyroCalibrated = true) (ha : e.alpha = some a)
    (hb : e.beta = some b) : GyroMirrorSpec pi e s := by
  unfold GyroMirrorSpec handleOrientation handleOrientationSrc
  rcases e with ⟨ea, eb, eg⟩
  simp only at ha hb
  subst ha
  subst hb
  simp only [hen, hgy, hcal, Bool.not_true, Bool.or_false, Bool.false_or,
    Bool.or_self, if_neg, ite_false, Bool.false_eq_true, not_false_eq_true]
  constructor
  · trivial
  · have hy := clamp_reflect pi (pi / 2 + degToRad pi (b - 50) * 0.5) hpi
    have hrw : pi - (pi / 2 + degToRad pi (b - 50) * 0.5)
        = pi / 2 - degToRad pi (b - 50) * 0.5 := by
      unfold degToRad
      ring
    rw [hrw] at hy
    linarith

/-- C10 amended witness: the mirror specification discharged at the
concrete event and state over the rationals. -/
theorem gyro_handlers_mirror_witness :
    (0 : ℚ) ≤ piQ ∧ sampleControls.enabled = true
    ∧ sampleControls.gyroEnabled = true
    ∧ sampleControls.gyroCalibrated = true
    ∧ sampleOrientation.alpha = some 10
    ∧ sampleOrientation.beta = some 50
    ∧ GyroMirrorSpec piQ sampleOrientation sampleControls :=
  ⟨by decide, rfl, rfl, rfl, rfl, rfl,
    gyro_handlers_mirror piQ sampleOrientation sampleControls 10 50
      (by decide) rfl rfl rfl rfl rfl⟩
